import Mathlib

/-!
Shallow embedding of the Inventory repository core: the item operations of
src/db.rs, the grouping block of root_handler and get_text_color_for_bg of
src/handlers/web_handlers.rs, and the notification helpers of both handler
modules. The persistent store is modelled as explicit lists of rows; the SQL
NOW() timestamp and the database-chosen fresh id are passed as parameters to
the operations that use them.
-/

namespace Inventory

structure Category where
  id : Int
  name : String
  color : String
deriving DecidableEq, Repr

structure Item where
  id : Int
  name : String
  quantity : Int
  restock_threshold : Int
  category : Option Category
  created_at : Int
  updated_at : Int
deriving DecidableEq, Repr

structure ItemRow where
  user_id : Int
  id : Int
  name : String
  quantity : Int
  restock_threshold : Int
  category_id : Option Int
  created_at : Int
  updated_at : Int
deriving DecidableEq, Repr

structure CategoryRow where
  user_id : Int
  id : Int
  name : String
  color : String
deriving DecidableEq, Repr

structure DB where
  items : List ItemRow
  categories : List CategoryRow
deriving DecidableEq, Repr

structure CreateItemPayload where
  name : String
  quantity : Int
  restock_threshold : Option Int
  category_id : Option Int
deriving DecidableEq, Repr

structure UpdateItemPayload where
  name : Option String
  quantity : Option Int
  restock_threshold : Option Int
  category_id : Option Int
deriving DecidableEq, Repr

structure PurchaseItemPayload where
  quantity : Int
deriving DecidableEq, Repr

/-- The WHERE clause shared by the single-item queries of src/db.rs:
user_id = $1 AND id = $2. -/
def rowMatch (user_id item_id : Int) (r : ItemRow) : Bool :=
  r.user_id == user_id && r.id == item_id

/-- The LEFT JOIN of the item queries (ON c.id = i.category_id AND
c.user_id = i.user_id): a NULL category_id joins nothing, otherwise the
category row of the same account with that id is taken. -/
def lookupCategory (categories : List CategoryRow) (user_id : Int) :
    Option Int → Option Category
  | none => none
  | some cid =>
    (categories.find? (fun c => c.id == cid && c.user_id == user_id)).map
      (fun c => ⟨c.id, c.name, c.color⟩)

/-- The conversion from FlatItemRow to Item (src/db.rs 120-139), with the
category columns of the row recovered through the join. -/
def itemOfRow (categories : List CategoryRow) (r : ItemRow) : Item :=
  ⟨r.id, r.name, r.quantity, r.restock_threshold,
   lookupCategory categories r.user_id r.category_id, r.created_at, r.updated_at⟩

/-- Embeds get_item_by_id (src/db.rs 167-191): the account's item row with
the given id, with its category resolved by the LEFT JOIN. -/
def get_item_by_id (db : DB) (user_id item_id : Int) : Option Item :=
  (db.items.find? (rowMatch user_id item_id)).map (itemOfRow db.categories)

/-- Embeds get_all_items (src/db.rs 141-165): every item row of the account,
joined with its category and ordered by item name. -/
def get_all_items (db : DB) (user_id : Int) : List Item :=
  List.insertionSort (fun a b => a.name ≤ b.name)
    ((db.items.filter (fun r => r.user_id == user_id)).map (itemOfRow db.categories))

/-- Embeds create_item (src/db.rs 193-219): INSERT of a new row with the
restock threshold defaulting to 1 and the payload quantity and category id
stored as supplied, followed by a re-fetch of the inserted row. -/
def create_item (db : DB) (user_id : Int) (payload : CreateItemPayload)
    (new_id now : Int) : DB × Option Item :=
  let threshold := payload.restock_threshold.getD 1
  let row : ItemRow :=
    ⟨user_id, new_id, payload.name, payload.quantity, threshold,
     payload.category_id, now, now⟩
  let db2 : DB := ⟨db.items ++ [row], db.categories⟩
  (db2, get_item_by_id db2 user_id new_id)

/-- Embeds update_item (src/db.rs 221-277): fetch the current row; merge
name, quantity and restock_threshold with the payload via unwrap_or, but
write the payload's category_id directly; UPDATE the matching rows setting
updated_at to NOW(); then re-fetch. -/
def update_item (db : DB) (user_id item_id : Int) (payload : UpdateItemPayload)
    (now : Int) : DB × Option Item :=
  match db.items.find? (rowMatch user_id item_id) with
  | none => (db, none)
  | some cur =>
    let name := payload.name.getD cur.name
    let quantity := payload.quantity.getD cur.quantity
    let restock_threshold := payload.restock_threshold.getD cur.restock_threshold
    let updated_rows := (db.items.filter (rowMatch user_id item_id)).length
    let db2 : DB :=
      ⟨db.items.map (fun r =>
        if rowMatch user_id item_id r then
          ⟨r.user_id, r.id, name, quantity, restock_threshold,
           payload.category_id, r.created_at, now⟩
        else r), db.categories⟩
    if 0 < updated_rows then (db2, get_item_by_id db2 user_id item_id)
    else (db2, none)

/-- Embeds use_item (src/db.rs 279-316): read the current quantity; a missing
item returns none; quantity 0 is a no-op that just re-fetches the item;
otherwise UPDATE the quantity to one less and updated_at to NOW(), then
re-fetch. -/
def use_item (db : DB) (user_id item_id now : Int) : DB × Option Item :=
  match db.items.find? (rowMatch user_id item_id) with
  | none => (db, none)
  | some cur =>
    if cur.quantity == 0 then
      (db, get_item_by_id db user_id item_id)
    else
      let new_quantity := cur.quantity - 1
      let affected_rows := (db.items.filter (rowMatch user_id item_id)).length
      let db2 : DB :=
        ⟨db.items.map (fun r =>
          if rowMatch user_id item_id r then
            ⟨r.user_id, r.id, r.name, new_quantity, r.restock_threshold,
             r.category_id, r.created_at, now⟩
          else r), db.categories⟩
      if 0 < affected_rows then (db2, get_item_by_id db2 user_id item_id)
      else (db2, none)

/-- Embeds purchase_item (src/db.rs 318-344): a non-positive payload quantity
re-fetches the item without any UPDATE; otherwise UPDATE quantity to
quantity + $1 and updated_at to NOW(), then re-fetch. -/
def purchase_item (db : DB) (user_id item_id : Int) (payload : PurchaseItemPayload)
    (now : Int) : DB × Option Item :=
  if payload.quantity ≤ 0 then
    (db, get_item_by_id db user_id item_id)
  else
    let affected_rows := (db.items.filter (rowMatch user_id item_id)).length
    let db2 : DB :=
      ⟨db.items.map (fun r =>
        if rowMatch user_id item_id r then
          ⟨r.user_id, r.id, r.name, r.quantity + payload.quantity,
           r.restock_threshold, r.category_id, r.created_at, now⟩
        else r), db.categories⟩
    if 0 < affected_rows then (db2, get_item_by_id db2 user_id item_id)
    else (db2, none)

/-- Embeds delete_item (src/db.rs 346-355): DELETE of the account's rows with
the given id, returning the number of rows removed. -/
def delete_item (db : DB) (user_id item_id : Int) : DB × Nat :=
  (⟨db.items.filter (fun r => !(rowMatch user_id item_id r)), db.categories⟩,
   (db.items.filter (rowMatch user_id item_id)).length)

/-- Value of an ASCII hexadecimal digit byte. -/
def hexDigitVal (b : Nat) : Option Nat :=
  if 48 ≤ b ∧ b ≤ 57 then some (b - 48)
  else if 97 ≤ b ∧ b ≤ 102 then some (b - 87)
  else if 65 ≤ b ∧ b ≤ 70 then some (b - 55)
  else none

/-- u8::from_str_radix with radix 16 on a two-byte slice: an optional leading
plus sign then hexadecimal digits; two hex digits never overflow u8, so no
overflow case arises. -/
def from_str_radix_16_u8 (b1 b2 : Nat) : Option Nat :=
  if b1 == 43 then hexDigitVal b2
  else
    match hexDigitVal b1, hexDigitVal b2 with
    | some v1, some v2 => some (16 * v1 + v2)
    | _, _ => none

/-- A UTF-8 continuation byte: str::is_char_boundary is false exactly at
such a byte, and Rust string slicing panics when a slice boundary falls on
one. -/
def isUtf8ContByte (b : Nat) : Bool :=
  128 ≤ b && b < 192

/-- Embeds get_text_color_for_bg (src/handlers/web_handlers.rs 27-46) on the
UTF-8 bytes of its input: trim_start_matches removes every leading hash byte
and the length check is on the byte length only. The source then slices the
remaining six bytes at offsets 0..2, 2..4 and 4..6; when offset 2 or offset 4
falls inside a multi-byte character the slice panics, which the model returns
as none. Otherwise the three two-byte components parse with unwrap_or 0 and
text is black exactly above brightness 150. The weighted sum is at most
255000, far below 2^32, so plain Nat arithmetic matches the u32 arithmetic
of the source. -/
def get_text_color_for_bg (hex_color : List Nat) : Option String :=
  let stripped := hex_color.dropWhile (fun b => b == 35)
  if stripped.length ≠ 6 then some "#000000"
  else if isUtf8ContByte (stripped.getD 2 0) || isUtf8ContByte (stripped.getD 4 0)
  then none
  else
    let r := (from_str_radix_16_u8 (stripped.getD 0 0) (stripped.getD 1 0)).getD 0
    let g := (from_str_radix_16_u8 (stripped.getD 2 0) (stripped.getD 3 0)).getD 0
    let b := (from_str_radix_16_u8 (stripped.getD 4 0) (stripped.getD 5 0)).getD 0
    let brightness := (r * 299 + g * 587 + b * 114) / 1000
    some (if brightness > 150 then "#000000" else "#FFFFFF")

/-- UTF-8 bytes of a Lean string, feeding the byte-level colour resolver. -/
def strBytes (s : String) : List Nat :=
  (s.data.flatMap String.utf8EncodeChar).map UInt8.toNat

structure CategoryWithItems where
  id : Int
  name : String
  color : String
  text_color : String
  items : List Item
deriving DecidableEq, Repr

structure GroupedItems where
  categorized : List CategoryWithItems
  uncategorized : List Item
deriving DecidableEq, Repr

structure Notification where
  item_name : String
  message : String
deriving DecidableEq, Repr

/-- HashMap::insert keyed by category id: replace the group carrying that id,
or add a new one. The iteration order of the Rust HashMap is arbitrary; the
model keeps first-insertion order, which is a sound refinement because
root_handler sorts the groups by name before using them. -/
def mapInsert (m : List CategoryWithItems) (g : CategoryWithItems) :
    List CategoryWithItems :=
  if m.any (fun x => x.id == g.id) then
    m.map (fun x => if x.id == g.id then g else x)
  else m ++ [g]

/-- The empty group seeded from one fetched category given its
already-computed text colour (web_handlers.rs 100-109). -/
def seedGroup (c : Category) (text_color : String) : CategoryWithItems :=
  ⟨c.id, c.name, c.color, text_color, []⟩

/-- One step of the seeding loop of root_handler (web_handlers.rs 98-110):
the category's text colour is computed once per category — a panic of the
colour resolver aborts the whole handler, propagated here as none — and the
empty group is inserted keyed by category id. -/
def seedStep (acc : Option (List CategoryWithItems)) (c : Category) :
    Option (List CategoryWithItems) :=
  match acc with
  | none => none
  | some m =>
    match get_text_color_for_bg (strBytes c.color) with
    | none => none
    | some tc => some (mapInsert m (seedGroup c tc))

/-- One step of the item walk of root_handler (web_handlers.rs 114-122): a
categorized item is pushed onto the group carrying its category id when such
a group exists and is dropped otherwise; an item without a category is
appended to the uncategorized list. -/
def groupStep (acc : List CategoryWithItems × List Item) (item : Item) :
    List CategoryWithItems × List Item :=
  match item.category with
  | some c =>
    if acc.1.any (fun g => g.id == c.id) then
      (acc.1.map (fun g =>
        if g.id == c.id then
          ⟨g.id, g.name, g.color, g.text_color, g.items ++ [item]⟩
        else g), acc.2)
    else acc
  | none => (acc.1, acc.2 ++ [item])

/-- Embeds the group_by_category branch of root_handler (web_handlers.rs
95-130): seed one empty group per fetched category with its computed text
colour — none when the colour resolver panics on some category, since the
whole handler then dies before producing output — then walk the items with
groupStep and sort the groups by name. -/
def root_handler_grouping (items : List Item) (categories : List Category) :
    Option GroupedItems :=
  match categories.foldl seedStep (some []) with
  | none => none
  | some seeded =>
    let walked := items.foldl groupStep (seeded, [])
    some ⟨List.insertionSort (fun a b => a.name ≤ b.name) walked.1, walked.2⟩

/-- The group a panic-free category seeds, stated with a default that the
panic-freedom hypotheses of the lemmas below make unreachable; used only to
phrase the pure seeding fold that the Option-valued fold collapses to. -/
def seedGroupD (c : Category) : CategoryWithItems :=
  seedGroup c ((get_text_color_for_bg (strBytes c.color)).getD "")

/-- An item carries a category reference with the given id; the membership
test the walk of root_handler performs against the group map keys. -/
def itemHasCategoryId (cid : Int) (item : Item) : Bool :=
  match item.category with
  | some c => c.id == cid
  | none => false

/-- A group extended by a batch of items at the end of its item list. -/
def addGroupItems (g : CategoryWithItems) (l : List Item) : CategoryWithItems :=
  ⟨g.id, g.name, g.color, g.text_color, g.items ++ l⟩

instance : IsTotal CategoryWithItems (fun a b => a.name ≤ b.name) :=
  ⟨fun a b => le_total a.name b.name⟩

instance : IsTrans CategoryWithItems (fun a b => a.name ≤ b.name) :=
  ⟨fun _ _ _ h1 h2 => le_trans h1 h2⟩

/-- The colour contract of claim C8 as amended, written from the amended
spec words rather than from the Rust shape, for comparison with
get_text_color_for_bg: strip every leading hash byte; unless exactly six
bytes remain, fall back to black; panic (none) when a multi-byte character
straddles the component boundary at offset 2 or 4; otherwise parse the three
byte pairs with fallback 0 per pair and pick black text exactly when the
integer-truncated brightness (299 R + 587 G + 114 B) / 1000 exceeds 150. -/
def textColorForSpec (bs : List Nat) : Option String :=
  match bs.dropWhile (fun b => b == 35) with
  | [b0, b1, b2, b3, b4, b5] =>
    if isUtf8ContByte b2 || isUtf8ContByte b4 then none
    else if 150 < (299 * (from_str_radix_16_u8 b0 b1).getD 0 +
        587 * (from_str_radix_16_u8 b2 b3).getD 0 +
        114 * (from_str_radix_16_u8 b4 b5).getD 0) / 1000
    then some "#000000" else some "#FFFFFF"
  | _ => some "#000000"

/-- Embeds get_notifications (web_handlers.rs 49-66): on a successful fetch
of the items to restock, one message per item; on any fetch error, the empty
list. The fetch outcome is the explicit argument. -/
def get_notifications {ε : Type} (fetched : Except ε (List Item)) :
    List Notification :=
  match fetched with
  | Except.ok items_to_restock =>
    items_to_restock.map (fun item =>
      ⟨item.name,
       "Aktualna ilość: " ++ toString item.quantity ++
         ", próg uzupełnienia: " ++ toString item.restock_threshold ++
         ". Proszę uzupełnij!"⟩)
  | Except.error _ => []

/-- Embeds get_api_notifications (api_handlers.rs 19-36): same outcome match
with the API message format. -/
def get_api_notifications {ε : Type} (fetched : Except ε (List Item)) :
    List Notification :=
  match fetched with
  | Except.ok items_to_restock =>
    items_to_restock.map (fun item =>
      ⟨item.name,
       "Item \x27" ++ item.name ++ "\x27 needs restocking. Current: " ++
         toString item.quantity ++ ", Threshold: " ++
         toString item.restock_threshold ++ "."⟩)
  | Except.error _ => []

/-! ### Helper lemmas about the store model -/

lemma rowMatch_iff (user_id item_id : Int) (r : ItemRow) :
    rowMatch user_id item_id r = true ↔ r.user_id = user_id ∧ r.id = item_id := by
  simp [rowMatch]

lemma DB.eta (db : DB) : (⟨db.items, db.categories⟩ : DB) = db := rfl

lemma map_update_eq_self (l : List ItemRow) (p : ItemRow → Bool)
    (g : ItemRow → ItemRow) (h : l.find? p = none) :
    l.map (fun r => if p r then g r else r) = l := by
  have h' := List.find?_eq_none.mp h
  have hcongr : l.map (fun r => if p r then g r else r) = l.map (fun r => r) := by
    apply List.map_congr_left
    intro a ha
    exact if_neg (h' a ha)
  rw [hcongr, List.map_id']

lemma filter_length_zero_of_find?_none (l : List ItemRow) (p : ItemRow → Bool)
    (h : l.find? p = none) : (l.filter p).length = 0 := by
  rw [List.filter_eq_nil_iff.mpr (List.find?_eq_none.mp h)]
  rfl

lemma filter_length_pos_of_find?_some (l : List ItemRow) (p : ItemRow → Bool)
    (cur : ItemRow) (h : l.find? p = some cur) : 0 < (l.filter p).length := by
  have hmem : cur ∈ l.filter p :=
    List.mem_filter.mpr ⟨List.mem_of_find?_eq_some h, List.find?_some h⟩
  exact List.length_pos.mpr (List.ne_nil_of_mem hmem)

lemma find?_map_update (l : List ItemRow) (p : ItemRow → Bool)
    (g : ItemRow → ItemRow) (hg : ∀ r, p (g r) = p r) (cur : ItemRow)
    (h : l.find? p = some cur) :
    (l.map (fun r => if p r then g r else r)).find? p = some (g cur) := by
  have hfun : (p ∘ fun r => if p r then g r else r) = p := by
    funext r
    by_cases hr : p r = true
    · simp [Function.comp, hr, hg]
    · simp [Function.comp, hr]
  rw [List.find?_map, hfun, h, Option.map_some']
  rw [if_pos (List.find?_some h)]

lemma get_item_none_iff (db : DB) (user_id item_id : Int) :
    get_item_by_id db user_id item_id = none ↔
      db.items.find? (rowMatch user_id item_id) = none := by
  simp [get_item_by_id]

lemma get_item_some (db : DB) (user_id item_id : Int) (it : Item)
    (h : get_item_by_id db user_id item_id = some it) :
    ∃ cur, db.items.find? (rowMatch user_id item_id) = some cur ∧
      itemOfRow db.categories cur = it ∧ cur.user_id = user_id ∧ cur.id = item_id := by
  obtain ⟨cur, hcur, hit⟩ := Option.map_eq_some'.mp h
  obtain ⟨h1, h2⟩ := (rowMatch_iff user_id item_id cur).mp (List.find?_some hcur)
  exact ⟨cur, hcur, hit, h1, h2⟩

/-! ### Branch lemmas for the mutating operations -/

lemma use_item_not_found (db : DB) (user_id item_id now : Int)
    (h : db.items.find? (rowMatch user_id item_id) = none) :
    use_item db user_id item_id now = (db, none) := by
  simp [use_item, h]

lemma use_item_at_zero (db : DB) (user_id item_id now : Int) (cur : ItemRow)
    (h : db.items.find? (rowMatch user_id item_id) = some cur)
    (hq : cur.quantity = 0) :
    use_item db user_id item_id now = (db, get_item_by_id db user_id item_id) := by
  simp [use_item, h, hq]

lemma use_item_at_pos (db : DB) (user_id item_id now : Int) (cur : ItemRow)
    (h : db.items.find? (rowMatch user_id item_id) = some cur)
    (hq : ¬ cur.quantity = 0) :
    use_item db user_id item_id now =
      (⟨db.items.map (fun r =>
          if rowMatch user_id item_id r then
            ⟨r.user_id, r.id, r.name, cur.quantity - 1, r.restock_threshold,
             r.category_id, r.created_at, now⟩
          else r), db.categories⟩,
       some (itemOfRow db.categories
        ⟨cur.user_id, cur.id, cur.name, cur.quantity - 1, cur.restock_threshold,
         cur.category_id, cur.created_at, now⟩)) := by
  have hg : ∀ r : ItemRow, rowMatch user_id item_id
      (⟨r.user_id, r.id, r.name, cur.quantity - 1, r.restock_threshold,
        r.category_id, r.created_at, now⟩ : ItemRow) = rowMatch user_id item_id r :=
    fun _ => rfl
  have hfind := find?_map_update db.items (rowMatch user_id item_id) _ hg cur h
  have hpos := filter_length_pos_of_find?_some db.items (rowMatch user_id item_id) cur h
  simp [use_item, h, hq, get_item_by_id, hfind, hpos]

lemma purchase_item_nonpos (db : DB) (user_id item_id : Int)
    (payload : PurchaseItemPayload) (now : Int) (hp : payload.quantity ≤ 0) :
    purchase_item db user_id item_id payload now =
      (db, get_item_by_id db user_id item_id) := by
  simp [purchase_item, hp]

lemma purchase_item_not_found (db : DB) (user_id item_id : Int)
    (payload : PurchaseItemPayload) (now : Int)
    (h : db.items.find? (rowMatch user_id item_id) = none) :
    purchase_item db user_id item_id payload now = (db, none) := by
  by_cases hp : payload.quantity ≤ 0
  · simp [purchase_item, hp, get_item_by_id, h]
  · have hself := map_update_eq_self db.items (rowMatch user_id item_id)
      (fun r => ⟨r.user_id, r.id, r.name, r.quantity + payload.quantity,
        r.restock_threshold, r.category_id, r.created_at, now⟩) h
    have hzero := filter_length_zero_of_find?_none db.items (rowMatch user_id item_id) h
    simp [purchase_item, hp, hself, hzero]

lemma purchase_item_found (db : DB) (user_id item_id : Int)
    (payload : PurchaseItemPayload) (now : Int) (cur : ItemRow)
    (h : db.items.find? (rowMatch user_id item_id) = some cur)
    (hp : ¬ payload.quantity ≤ 0) :
    purchase_item db user_id item_id payload now =
      (⟨db.items.map (fun r =>
          if rowMatch user_id item_id r then
            ⟨r.user_id, r.id, r.name, r.quantity + payload.quantity,
             r.restock_threshold, r.category_id, r.created_at, now⟩
          else r), db.categories⟩,
       some (itemOfRow db.categories
        ⟨cur.user_id, cur.id, cur.name, cur.quantity + payload.quantity,
         cur.restock_threshold, cur.category_id, cur.created_at, now⟩)) := by
  have hg : ∀ r : ItemRow, rowMatch user_id item_id
      (⟨r.user_id, r.id, r.name, r.quantity + payload.quantity,
        r.restock_threshold, r.category_id, r.created_at, now⟩ : ItemRow) =
        rowMatch user_id item_id r := fun _ => rfl
  have hfind := find?_map_update db.items (rowMatch user_id item_id) _ hg cur h
  have hpos := filter_length_pos_of_find?_some db.items (rowMatch user_id item_id) cur h
  simp [purchase_item, hp, get_item_by_id, hfind, hpos]

lemma update_item_not_found (db : DB) (user_id item_id : Int)
    (payload : UpdateItemPayload) (now : Int)
    (h : db.items.find? (rowMatch user_id item_id) = none) :
    update_item db user_id item_id payload now = (db, none) := by
  simp [update_item, h]

lemma update_item_found (db : DB) (user_id item_id : Int)
    (payload : UpdateItemPayload) (now : Int) (cur : ItemRow)
    (h : db.items.find? (rowMatch user_id item_id) = some cur) :
    (update_item db user_id item_id payload now).2 =
      some (itemOfRow db.categories
        ⟨cur.user_id, cur.id, payload.name.getD cur.name,
         payload.quantity.getD cur.quantity,
         payload.restock_threshold.getD cur.restock_threshold,
         payload.category_id, cur.created_at, now⟩) := by
  have hg : ∀ r : ItemRow, rowMatch user_id item_id
      (⟨r.user_id, r.id, payload.name.getD cur.name,
        payload.quantity.getD cur.quantity,
        payload.restock_threshold.getD cur.restock_threshold,
        payload.category_id, r.created_at, now⟩ : ItemRow) =
        rowMatch user_id item_id r := fun _ => rfl
  have hfind := find?_map_update db.items (rowMatch user_id item_id) _ hg cur h
  have hpos := filter_length_pos_of_find?_some db.items (rowMatch user_id item_id) cur h
  simp [update_item, h, get_item_by_id, hfind, hpos]

/-! ### Claim theorems -/

/-- C5: use_item on an existing item decrements its quantity by exactly one;
when the quantity is already 0 it is a no-op that still returns the current
unchanged item rather than an error; and it returns none when no item with
that id exists for the account. -/
theorem use_item_spec (db : DB) (user_id item_id now : Int) :
    (get_item_by_id db user_id item_id = none →
      use_item db user_id item_id now = (db, none)) ∧
    (∀ it, get_item_by_id db user_id item_id = some it → it.quantity = 0 →
      use_item db user_id item_id now = (db, some it)) ∧
    (∀ it, get_item_by_id db user_id item_id = some it → it.quantity ≠ 0 →
      (use_item db user_id item_id now).2 =
        some ⟨it.id, it.name, it.quantity - 1, it.restock_threshold, it.category,
              it.created_at, now⟩) := by
  refine ⟨?_, ?_, ?_⟩
  · intro h
    exact use_item_not_found db user_id item_id now ((get_item_none_iff ..).mp h)
  · intro it h hq
    obtain ⟨cur, hcur, hit, -, -⟩ := get_item_some db user_id item_id it h
    have hq' : cur.quantity = 0 := by rw [← hit] at hq; exact hq
    rw [use_item_at_zero db user_id item_id now cur hcur hq', h]
  · intro it h hq
    obtain ⟨cur, hcur, hit, -, -⟩ := get_item_some db user_id item_id it h
    have hq' : ¬ cur.quantity = 0 := by rw [← hit] at hq; exact hq
    rw [use_item_at_pos db user_id item_id now cur hcur hq', ← hit]
    rfl

/-- C5 witness: using an item stored at quantity 3 yields quantity 2. -/
theorem use_item_spec_witness :
    get_item_by_id ⟨[⟨1, 10, "milk", 3, 1, none, 0, 0⟩], []⟩ 1 10 =
        some ⟨10, "milk", 3, 1, none, 0, 0⟩ ∧
    (3 : Int) ≠ 0 ∧
    (use_item ⟨[⟨1, 10, "milk", 3, 1, none, 0, 0⟩], []⟩ 1 10 7).2 =
      some ⟨10, "milk", 2, 1, none, 0, 7⟩ :=
  ⟨by decide, by decide,
    (use_item_spec ⟨[⟨1, 10, "milk", 3, 1, none, 0, 0⟩], []⟩ 1 10 7).2.2
      ⟨10, "milk", 3, 1, none, 0, 0⟩ (by decide) (by decide)⟩

/-- C6: purchase_item on an existing item increments its quantity by exactly
the payload amount when the amount is positive; a non-positive amount is a
no-op that returns the current item unchanged; and a missing item yields
none. -/
theorem purchase_item_spec (db : DB) (user_id item_id now : Int)
    (payload : PurchaseItemPayload) :
    (payload.quantity ≤ 0 →
      purchase_item db user_id item_id payload now =
        (db, get_item_by_id db user_id item_id)) ∧
    (get_item_by_id db user_id item_id = none →
      purchase_item db user_id item_id payload now = (db, none)) ∧
    (∀ it, get_item_by_id db user_id item_id = some it → 0 < payload.quantity →
      (purchase_item db user_id item_id payload now).2 =
        some ⟨it.id, it.name, it.quantity + payload.quantity, it.restock_threshold,
              it.category, it.created_at, now⟩) := by
  refine ⟨?_, ?_, ?_⟩
  · intro hp
    exact purchase_item_nonpos db user_id item_id payload now hp
  · intro h
    exact purchase_item_not_found db user_id item_id payload now
      ((get_item_none_iff ..).mp h)
  · intro it h hp
    obtain ⟨cur, hcur, hit, -, -⟩ := get_item_some db user_id item_id it h
    rw [purchase_item_found db user_id item_id payload now cur hcur (not_le.mpr hp),
      ← hit]
    rfl

/-- C6 witness: purchasing 5 of an item stored at quantity 3 yields 8. -/
theorem purchase_item_spec_witness :
    get_item_by_id ⟨[⟨1, 10, "milk", 3, 1, none, 0, 0⟩], []⟩ 1 10 =
        some ⟨10, "milk", 3, 1, none, 0, 0⟩ ∧
    (0 : Int) < 5 ∧
    (purchase_item ⟨[⟨1, 10, "milk", 3, 1, none, 0, 0⟩], []⟩ 1 10 ⟨5⟩ 7).2 =
      some ⟨10, "milk", 8, 1, none, 0, 7⟩ :=
  ⟨by decide, by decide,
    (purchase_item_spec ⟨[⟨1, 10, "milk", 3, 1, none, 0, 0⟩], []⟩ 1 10 7 ⟨5⟩).2.2
      ⟨10, "milk", 3, 1, none, 0, 0⟩ (by decide) (by decide)⟩

/-- C10: the no-op branches perform no write at all: use_item on an existing
item of quantity 0 and purchase_item with a non-positive amount return the
store exactly as it was — every stored field, updated_at included, is
unchanged — and the returned item is the stored item. -/
theorem noop_branches_no_write (db : DB) (user_id item_id now : Int)
    (payload : PurchaseItemPayload) :
    (∀ it, get_item_by_id db user_id item_id = some it → it.quantity = 0 →
      use_item db user_id item_id now = (db, some it)) ∧
    (payload.quantity ≤ 0 →
      purchase_item db user_id item_id payload now =
        (db, get_item_by_id db user_id item_id)) := by
  constructor
  · intro it h hq
    obtain ⟨cur, hcur, hit, -, -⟩ := get_item_some db user_id item_id it h
    have hq' : cur.quantity = 0 := by rw [← hit] at hq; exact hq
    rw [use_item_at_zero db user_id item_id now cur hcur hq', h]
  · intro hp
    exact purchase_item_nonpos db user_id item_id payload now hp

/-- C10 witness: on an item of quantity 0, use writes nothing; a purchase of
amount 0 writes nothing. -/
theorem noop_branches_no_write_witness :
    get_item_by_id ⟨[⟨1, 10, "milk", 0, 1, none, 0, 0⟩], []⟩ 1 10 =
        some ⟨10, "milk", 0, 1, none, 0, 0⟩ ∧
    (0 : Int) ≤ 0 ∧
    use_item ⟨[⟨1, 10, "milk", 0, 1, none, 0, 0⟩], []⟩ 1 10 7 =
      (⟨[⟨1, 10, "milk", 0, 1, none, 0, 0⟩], []⟩,
       some ⟨10, "milk", 0, 1, none, 0, 0⟩) ∧
    purchase_item ⟨[⟨1, 10, "milk", 0, 1, none, 0, 0⟩], []⟩ 1 10 ⟨0⟩ 7 =
      (⟨[⟨1, 10, "milk", 0, 1, none, 0, 0⟩], []⟩,
       get_item_by_id ⟨[⟨1, 10, "milk", 0, 1, none, 0, 0⟩], []⟩ 1 10) :=
  ⟨by decide, by decide,
    (noop_branches_no_write ⟨[⟨1, 10, "milk", 0, 1, none, 0, 0⟩], []⟩ 1 10 7 ⟨0⟩).1
      ⟨10, "milk", 0, 1, none, 0, 0⟩ (by decide) (by decide),
    (noop_branches_no_write ⟨[⟨1, 10, "milk", 0, 1, none, 0, 0⟩], []⟩ 1 10 7 ⟨0⟩).2
      (by decide)⟩

/-- C3 counterexample: the claim's merge-patch semantics fail for categoryId.
An item stored with category 5 updated with an all-unset payload loses its
category reference: update_item writes the payload category_id (none)
directly instead of retaining the prior value. -/
theorem update_item_clears_category :
    get_item_by_id ⟨[⟨1, 1, "x", 5, 2, some 5, 0, 0⟩], [⟨1, 5, "Pantry", "#FFFFFF"⟩]⟩
        1 1 = some ⟨1, "x", 5, 2, some ⟨5, "Pantry", "#FFFFFF"⟩, 0, 0⟩ ∧
    (update_item ⟨[⟨1, 1, "x", 5, 2, some 5, 0, 0⟩], [⟨1, 5, "Pantry", "#FFFFFF"⟩]⟩
        1 1 ⟨none, none, none, none⟩ 7).2 =
      some ⟨1, "x", 5, 2, none, 0, 7⟩ := by
  constructor
  · decide
  · decide

/-- C3 (amended): update_item has merge-patch semantics for name, quantity
and restock_threshold — each of those fields left unset retains its prior
stored value — but category_id is always overwritten with the payload value
(an unset category_id clears the stored reference), updated_at is set to the
write time, and none is returned when no item with that id exists for the
account. -/
theorem update_item_merge_semantics (db : DB) (user_id item_id now : Int)
    (payload : UpdateItemPayload) :
    (get_item_by_id db user_id item_id = none →
      update_item db user_id item_id payload now = (db, none)) ∧
    (∀ it, get_item_by_id db user_id item_id = some it →
      (update_item db user_id item_id payload now).2 =
        some ⟨it.id, payload.name.getD it.name, payload.quantity.getD it.quantity,
              payload.restock_threshold.getD it.restock_threshold,
              lookupCategory db.categories user_id payload.category_id,
              it.created_at, now⟩) := by
  constructor
  · intro h
    exact update_item_not_found db user_id item_id payload now
      ((get_item_none_iff ..).mp h)
  · intro it h
    obtain ⟨cur, hcur, hit, huser, -⟩ := get_item_some db user_id item_id it h
    rw [update_item_found db user_id item_id payload now cur hcur, ← hit, ← huser]
    rfl

/-- C3 witness: a payload setting only the name keeps quantity and threshold
and clears the category. -/
theorem update_item_merge_semantics_witness :
    get_item_by_id ⟨[⟨1, 1, "x", 5, 2, some 5, 0, 0⟩], [⟨1, 5, "Pantry", "#FFFFFF"⟩]⟩
        1 1 = some ⟨1, "x", 5, 2, some ⟨5, "Pantry", "#FFFFFF"⟩, 0, 0⟩ ∧
    (update_item ⟨[⟨1, 1, "x", 5, 2, some 5, 0, 0⟩], [⟨1, 5, "Pantry", "#FFFFFF"⟩]⟩
        1 1 ⟨some "y", none, none, none⟩ 7).2 =
      some ⟨1, "y", 5, 2, none, 0, 7⟩ :=
  ⟨by decide,
    (update_item_merge_semantics
        ⟨[⟨1, 1, "x", 5, 2, some 5, 0, 0⟩], [⟨1, 5, "Pantry", "#FFFFFF"⟩]⟩
        1 1 7 ⟨some "y", none, none, none⟩).2
      ⟨1, "x", 5, 2, some ⟨5, "Pantry", "#FFFFFF"⟩, 0, 0⟩ (by decide)⟩

/-- C2 counterexample: an update explicitly setting quantity to -3 on an item
stored at quantity 5 is not rejected and not clamped: the negative value is
written to the store and returned. -/
theorem update_item_negative_not_rejected :
    update_item ⟨[⟨1, 1, "x", 5, 1, none, 0, 0⟩], []⟩ 1 1
        ⟨none, some (-3), none, none⟩ 7 =
      (⟨[⟨1, 1, "x", -3, 1, none, 0, 7⟩], []⟩, some ⟨1, "x", -3, 1, none, 0, 7⟩) := by
  decide

/-- C2 (amended): update_item performs no validation on quantity: for every
existing item, a payload that explicitly sets quantity to a negative value
stores and returns that negative value as-is; no rejection path exists. -/
theorem update_item_applies_negative_quantity (db : DB)
    (user_id item_id now q : Int) (payload : UpdateItemPayload)
    (_hq : q < 0) (hpq : payload.quantity = some q)
    (it : Item) (h : get_item_by_id db user_id item_id = some it) :
    (update_item db user_id item_id payload now).2.map Item.quantity = some q := by
  obtain ⟨cur, hcur, -, -, -⟩ := get_item_some db user_id item_id it h
  rw [update_item_found db user_id item_id payload now cur hcur]
  simp [itemOfRow, hpq]

/-- C2 witness: quantity -3 is stored on an item previously at 5. -/
theorem update_item_applies_negative_quantity_witness :
    (-3 : Int) < 0 ∧
    (⟨none, some (-3), none, none⟩ : UpdateItemPayload).quantity = some (-3) ∧
    get_item_by_id ⟨[⟨1, 1, "x", 5, 1, none, 0, 0⟩], []⟩ 1 1 =
      some ⟨1, "x", 5, 1, none, 0, 0⟩ ∧
    (update_item ⟨[⟨1, 1, "x", 5, 1, none, 0, 0⟩], []⟩ 1 1
        ⟨none, some (-3), none, none⟩ 7).2.map Item.quantity = some (-3) :=
  ⟨by decide, rfl, by decide,
    update_item_applies_negative_quantity ⟨[⟨1, 1, "x", 5, 1, none, 0, 0⟩], []⟩
      1 1 7 (-3) ⟨none, some (-3), none, none⟩ (by decide) rfl
      ⟨1, "x", 5, 1, none, 0, 0⟩ (by decide)⟩

/-- C1 counterexample: a single createItem with a negative payload quantity
already stores a negative quantity — create_item applies the payload
unvalidated, so the claimed invariant does not survive create (nor update,
see the C2 counterexample). -/
theorem create_item_stores_negative :
    create_item ⟨[], []⟩ 1 ⟨"milk", -5, none, none⟩ 10 0 =
      (⟨[⟨1, 10, "milk", -5, 1, none, 0, 0⟩], []⟩,
       some ⟨10, "milk", -5, 1, none, 0, 0⟩) := by
  decide

/-- C1 (amended): use_item and purchase_item preserve non-negativity of
every stored quantity — a store in which all quantities are ≥ 0 stays that
way under any sequence of those two operations — whereas create_item and
update_item write the payload quantity without validation and therefore do
not. This theorem is the preservation half. -/
theorem use_purchase_preserve_nonneg (db : DB) (user_id item_id now : Int)
    (payload : PurchaseItemPayload)
    (h : ∀ r ∈ db.items, 0 ≤ r.quantity) :
    (∀ r ∈ (use_item db user_id item_id now).1.items, 0 ≤ r.quantity) ∧
    (∀ r ∈ (purchase_item db user_id item_id payload now).1.items,
      0 ≤ r.quantity) := by
  constructor
  · cases hfind : db.items.find? (rowMatch user_id item_id) with
    | none => rw [use_item_not_found db user_id item_id now hfind]; exact h
    | some cur =>
      by_cases hq : cur.quantity = 0
      · rw [use_item_at_zero db user_id item_id now cur hfind hq]; exact h
      · rw [use_item_at_pos db user_id item_id now cur hfind hq]
        intro r hr
        obtain ⟨s, hs, hrs⟩ := List.mem_map.mp hr
        by_cases hm : rowMatch user_id item_id s = true
        · have hcq : 0 ≤ cur.quantity := h cur (List.mem_of_find?_eq_some hfind)
          rw [← hrs, if_pos hm]
          show 0 ≤ cur.quantity - 1
          omega
        · rw [← hrs, if_neg hm]
          exact h s hs
  · by_cases hp : payload.quantity ≤ 0
    · rw [purchase_item_nonpos db user_id item_id payload now hp]; exact h
    · cases hfind : db.items.find? (rowMatch user_id item_id) with
      | none =>
        rw [purchase_item_not_found db user_id item_id payload now hfind]; exact h
      | some cur =>
        rw [purchase_item_found db user_id item_id payload now cur hfind hp]
        intro r hr
        obtain ⟨s, hs, hrs⟩ := List.mem_map.mp hr
        by_cases hm : rowMatch user_id item_id s = true
        · rw [← hrs, if_pos hm]
          show 0 ≤ s.quantity + payload.quantity
          have hsq := h s hs
          have hp' := not_le.mp hp
          omega
        · rw [← hrs, if_neg hm]
          exact h s hs

/-- C1 witness: a store with one item at quantity 2 keeps all quantities
non-negative under a use and under a purchase of 5. -/
theorem use_purchase_preserve_nonneg_witness :
    (∀ r ∈ (⟨[⟨1, 10, "milk", 2, 1, none, 0, 0⟩], []⟩ : DB).items,
      0 ≤ r.quantity) ∧
    ((∀ r ∈ (use_item ⟨[⟨1, 10, "milk", 2, 1, none, 0, 0⟩], []⟩ 1 10 7).1.items,
        0 ≤ r.quantity) ∧
     (∀ r ∈ (purchase_item ⟨[⟨1, 10, "milk", 2, 1, none, 0, 0⟩], []⟩ 1 10
          ⟨5⟩ 7).1.items, 0 ≤ r.quantity)) :=
  ⟨by decide,
    use_purchase_preserve_nonneg ⟨[⟨1, 10, "milk", 2, 1, none, 0, 0⟩], []⟩
      1 10 7 ⟨5⟩ (by decide)⟩

/-- C4: cross-account isolation: for distinct accounts A and B and an item id
all of whose rows belong to B, every repository operation invoked by A — get,
list, update, use, purchase, delete — reports not-found (or excludes the
item, or removes 0 rows) and leaves the entire store unchanged. -/
theorem cross_account_isolation (db : DB) (A B item_id : Int) (hAB : A ≠ B)
    (howner : ∀ r ∈ db.items, r.id = item_id → r.user_id = B)
    (up : UpdateItemPayload) (pp : PurchaseItemPayload) (now : Int) :
    get_item_by_id db A item_id = none ∧
    (∀ it ∈ get_all_items db A, it.id ≠ item_id) ∧
    update_item db A item_id up now = (db, none) ∧
    use_item db A item_id now = (db, none) ∧
    purchase_item db A item_id pp now = (db, none) ∧
    delete_item db A item_id = (db, 0) := by
  have hnone : db.items.find? (rowMatch A item_id) = none := by
    apply List.find?_eq_none.mpr
    intro r hr hmatch
    obtain ⟨h1, h2⟩ := (rowMatch_iff A item_id r).mp hmatch
    exact hAB (h1.symm.trans (howner r hr h2))
  refine ⟨(get_item_none_iff ..).mpr hnone, ?_, ?_, ?_, ?_, ?_⟩
  · intro it hit heq
    simp only [get_all_items] at hit
    have hmem := (List.mem_insertionSort _).mp hit
    obtain ⟨r, hr, hre⟩ := List.mem_map.mp hmem
    obtain ⟨hrmem, hruser⟩ := List.mem_filter.mp hr
    have hA : r.user_id = A := by simpa using hruser
    have hid : r.id = item_id := by rw [← hre] at heq; exact heq
    exact hAB (hA.symm.trans (howner r hrmem hid))
  · exact update_item_not_found db A item_id up now hnone
  · exact use_item_not_found db A item_id now hnone
  · exact purchase_item_not_found db A item_id pp now hnone
  · have hkeep : db.items.filter (fun r => !(rowMatch A item_id r)) = db.items := by
      apply List.filter_eq_self.mpr
      intro r hr
      have hfalse : rowMatch A item_id r = false := by
        simpa using List.find?_eq_none.mp hnone r hr
      simp [hfalse]
    have hzero := filter_length_zero_of_find?_none db.items (rowMatch A item_id) hnone
    simp [delete_item, hkeep, hzero]

/-- C4 witness: account 1 cannot see or touch account 2's item with id 10. -/
theorem cross_account_isolation_witness :
    (1 : Int) ≠ 2 ∧
    (∀ r ∈ (⟨[⟨2, 10, "b-item", 3, 1, none, 0, 0⟩], []⟩ : DB).items,
      r.id = 10 → r.user_id = 2) ∧
    (get_item_by_id ⟨[⟨2, 10, "b-item", 3, 1, none, 0, 0⟩], []⟩ 1 10 = none ∧
     (∀ it ∈ get_all_items ⟨[⟨2, 10, "b-item", 3, 1, none, 0, 0⟩], []⟩ 1,
        it.id ≠ 10) ∧
     update_item ⟨[⟨2, 10, "b-item", 3, 1, none, 0, 0⟩], []⟩ 1 10
         ⟨none, none, none, none⟩ 7 =
       (⟨[⟨2, 10, "b-item", 3, 1, none, 0, 0⟩], []⟩, none) ∧
     use_item ⟨[⟨2, 10, "b-item", 3, 1, none, 0, 0⟩], []⟩ 1 10 7 =
       (⟨[⟨2, 10, "b-item", 3, 1, none, 0, 0⟩], []⟩, none) ∧
     purchase_item ⟨[⟨2, 10, "b-item", 3, 1, none, 0, 0⟩], []⟩ 1 10 ⟨5⟩ 7 =
       (⟨[⟨2, 10, "b-item", 3, 1, none, 0, 0⟩], []⟩, none) ∧
     delete_item ⟨[⟨2, 10, "b-item", 3, 1, none, 0, 0⟩], []⟩ 1 10 =
       (⟨[⟨2, 10, "b-item", 3, 1, none, 0, 0⟩], []⟩, 0)) :=
  ⟨by decide, by decide,
    cross_account_isolation ⟨[⟨2, 10, "b-item", 3, 1, none, 0, 0⟩], []⟩ 1 2 10
      (by decide) (by decide) ⟨none, none, none, none⟩ ⟨5⟩ 7⟩

/-! ### Grouping lemmas -/

lemma addGroupItems_nil (g : CategoryWithItems) : addGroupItems g [] = g := by
  simp [addGroupItems]

lemma foldl_seedStep (cs : List Category) :
    ∀ m : List CategoryWithItems,
    (∀ c ∈ cs, (get_text_color_for_bg (strBytes c.color)).isSome) →
    cs.foldl seedStep (some m) =
      some (cs.foldl (fun m c => mapInsert m (seedGroupD c)) m) := by
  induction cs with
  | nil => intro m _; rfl
  | cons c cs ih =>
    intro m hok
    rw [List.foldl_cons, List.foldl_cons]
    obtain ⟨tc, htc⟩ :=
      Option.isSome_iff_exists.mp (hok c (List.mem_cons_self c cs))
    have hstep : seedStep (some m) c = some (mapInsert m (seedGroupD c)) := by
      simp [seedStep, seedGroupD, htc]
    rw [hstep]
    exact ih (mapInsert m (seedGroupD c))
      (fun c' hc' => hok c' (List.mem_cons_of_mem c hc'))

lemma foldl_mapInsert_seed (cs : List Category) :
    ∀ m : List CategoryWithItems,
    (∀ c ∈ cs, ∀ g ∈ m, g.id ≠ c.id) → (cs.map Category.id).Nodup →
    cs.foldl (fun m c => mapInsert m (seedGroupD c)) m = m ++ cs.map seedGroupD := by
  induction cs with
  | nil => intro m _ _; simp
  | cons c cs ih =>
    intro m hdisj hnodup
    rw [List.foldl_cons]
    have hany : m.any (fun x => x.id == (seedGroupD c).id) = false := by
      apply List.any_eq_false.mpr
      intro g hg
      simp only [seedGroupD, seedGroup, beq_iff_eq]
      exact hdisj c (List.mem_cons_self c cs) g hg
    have hins : mapInsert m (seedGroupD c) = m ++ [seedGroupD c] := by
      simp [mapInsert, hany]
    rw [hins]
    rw [List.map_cons] at hnodup
    obtain ⟨hnotmem, hnodup'⟩ := List.nodup_cons.mp hnodup
    have hdisj' : ∀ c' ∈ cs, ∀ g ∈ m ++ [seedGroupD c], g.id ≠ c'.id := by
      intro c' hc' g hg
      rcases List.mem_append.mp hg with hgm | hgs
      · exact hdisj c' (List.mem_cons_of_mem c hc') g hgm
      · have hgc : g = seedGroupD c := by simpa using hgs
        rw [hgc]
        show c.id ≠ c'.id
        intro hcc
        exact hnotmem (by rw [hcc]; exact List.mem_map_of_mem Category.id hc')
    rw [ih (m ++ [seedGroupD c]) hdisj' hnodup']
    simp [List.append_assoc]

lemma foldl_groupStep (is : List Item) :
    ∀ (m : List CategoryWithItems) (u : List Item),
    is.foldl groupStep (m, u) =
      (m.map (fun g => addGroupItems g (is.filter (itemHasCategoryId g.id))),
       u ++ is.filter (fun it => it.category.isNone)) := by
  induction is with
  | nil =>
    intro m u
    rw [List.foldl_nil]
    simp only [List.filter_nil, List.append_nil, addGroupItems_nil, List.map_id']
  | cons it is ih =>
    intro m u
    rw [List.foldl_cons]
    cases hcat : it.category with
    | none =>
      have hstep : groupStep (m, u) it = (m, u ++ [it]) := by
        simp [groupStep, hcat]
      rw [hstep, ih]
      simp [List.filter_cons, itemHasCategoryId, hcat, List.append_assoc]
    | some c =>
      cases hany : m.any (fun g => g.id == c.id) with
      | false =>
        have hstep : groupStep (m, u) it = (m, u) := by
          simp [groupStep, hcat, hany]
        rw [hstep, ih]
        have hall := List.any_eq_false.mp hany
        simp only [Prod.mk.injEq]
        constructor
        · apply List.map_congr_left
          intro g hg
          have hgc : (g.id == c.id) = false := by
            simpa using hall g hg
          have hcg : (c.id == g.id) = false :=
            beq_eq_false_iff_ne.mpr (Ne.symm (beq_eq_false_iff_ne.mp hgc))
          rw [List.filter_cons]
          simp [itemHasCategoryId, hcat, hcg]
        · simp [List.filter_cons, hcat]
      | true =>
        have hstep : groupStep (m, u) it =
            (m.map (fun g => if g.id == c.id then
              ⟨g.id, g.name, g.color, g.text_color, g.items ++ [it]⟩ else g),
             u) := by
          simp [groupStep, hcat, hany]
        rw [hstep, ih, List.map_map]
        simp only [Prod.mk.injEq]
        constructor
        · apply List.map_congr_left
          intro g _
          by_cases hgc : (g.id == c.id) = true
          · have hcg : (c.id == g.id) = true := by
              simp only [beq_iff_eq] at hgc ⊢
              exact hgc.symm
            simp [Function.comp, hgc, addGroupItems, List.filter_cons,
              itemHasCategoryId, hcat, hcg, List.append_assoc]
          · rw [Bool.not_eq_true] at hgc
            have hcg : (c.id == g.id) = false :=
              beq_eq_false_iff_ne.mpr (Ne.symm (beq_eq_false_iff_ne.mp hgc))
            simp [Function.comp, hgc, addGroupItems, List.filter_cons,
              itemHasCategoryId, hcat, hcg]
        · simp [List.filter_cons, hcat]

/-- C7 counterexample: an item whose category reference does not resolve to
any owned category is dropped entirely by root_handler's walk — the claim
requires it in the uncategorized list, but the output is completely empty. -/
theorem root_handler_grouping_drops_unresolved :
    root_handler_grouping
        [⟨11, "ghost", 1, 1, some ⟨99, "X", "#FFFFFF"⟩, 0, 0⟩] [] =
      some ⟨[], []⟩ := by
  decide

/-- C7 (amended): when every owned category has a colour on which the colour
resolver does not panic (a panicking colour kills the handler before any
output, modelled as none) and the category ids are pairwise distinct, the
grouping produces an output in which every owned category appears as a group
carrying its id, name, colour, computed text colour and exactly the supplied
items (in supplied order) whose category reference carries its id; items
without a category reference form the uncategorized list in supplied order;
items whose reference resolves to no owned category are omitted from the
output (not added to the uncategorized list); and the groups are sorted by
category name. -/
theorem root_handler_grouping_spec (items : List Item) (cats : List Category)
    (hnodup : (cats.map Category.id).Nodup)
    (hok : ∀ c ∈ cats, (get_text_color_for_bg (strBytes c.color)).isSome) :
    ∃ g, root_handler_grouping items cats = some g ∧
      (∀ c ∈ cats, ∀ tc, get_text_color_for_bg (strBytes c.color) = some tc →
        (⟨c.id, c.name, c.color, tc,
          items.filter (itemHasCategoryId c.id)⟩ : CategoryWithItems) ∈
          g.categorized) ∧
      g.uncategorized = items.filter (fun it => it.category.isNone) ∧
      List.Sorted (fun a b : CategoryWithItems => a.name ≤ b.name)
        g.categorized := by
  have hseedstep := foldl_seedStep cats [] hok
  have hseed := foldl_mapInsert_seed cats []
    (by intro c _ g hg; exact absurd hg (List.not_mem_nil g)) hnodup
  have hgroup : root_handler_grouping items cats =
      some ⟨List.insertionSort (fun a b => a.name ≤ b.name)
        ((cats.map seedGroupD).map
          (fun g => addGroupItems g (items.filter (itemHasCategoryId g.id)))),
       items.filter (fun it => it.category.isNone)⟩ := by
    simp only [root_handler_grouping, foldl_groupStep]
    rw [hseedstep, hseed, List.nil_append]
    rfl
  refine ⟨_, hgroup, ?_, rfl, List.sorted_insertionSort _ _⟩
  intro c hc tc htc
  show _ ∈ List.insertionSort _ _
  rw [List.mem_insertionSort]
  have hsg : seedGroupD c = seedGroup c tc := by
    simp [seedGroupD, htc]
  have hrepr : addGroupItems (seedGroup c tc)
      (items.filter (itemHasCategoryId (seedGroup c tc).id)) =
      (⟨c.id, c.name, c.color, tc,
        items.filter (itemHasCategoryId c.id)⟩ : CategoryWithItems) := by
    simp [addGroupItems, seedGroup]
  rw [← hrepr]
  apply List.mem_map.mpr
  exact ⟨seedGroupD c, List.mem_map_of_mem seedGroupD hc, by rw [hsg]⟩

/-- C7 witness: one category with a panic-free colour and two items, one
categorized and one not, yield exactly the §8 example output of the spec. -/
theorem root_handler_grouping_spec_witness :
    (([⟨1, "Pantry", "#FFFFFF"⟩] : List Category).map Category.id).Nodup ∧
    (∀ c ∈ ([⟨1, "Pantry", "#FFFFFF"⟩] : List Category),
      (get_text_color_for_bg (strBytes c.color)).isSome) ∧
    (∃ g, root_handler_grouping
        [⟨10, "a", 1, 1, some ⟨1, "Pantry", "#FFFFFF"⟩, 0, 0⟩,
         ⟨11, "b", 1, 1, none, 0, 0⟩]
        [⟨1, "Pantry", "#FFFFFF"⟩] = some g ∧
      (∀ c ∈ ([⟨1, "Pantry", "#FFFFFF"⟩] : List Category),
        ∀ tc, get_text_color_for_bg (strBytes c.color) = some tc →
        (⟨c.id, c.name, c.color, tc,
          [⟨10, "a", 1, 1, some ⟨1, "Pantry", "#FFFFFF"⟩, 0, 0⟩,
           ⟨11, "b", 1, 1, none, 0, 0⟩].filter (itemHasCategoryId c.id)⟩ :
          CategoryWithItems) ∈ g.categorized) ∧
      g.uncategorized =
        [⟨10, "a", 1, 1, some ⟨1, "Pantry", "#FFFFFF"⟩, 0, 0⟩,
         ⟨11, "b", 1, 1, none, 0, 0⟩].filter (fun it => it.category.isNone) ∧
      List.Sorted (fun a b : CategoryWithItems => a.name ≤ b.name)
        g.categorized) :=
  ⟨by decide, by decide,
    root_handler_grouping_spec
      [⟨10, "a", 1, 1, some ⟨1, "Pantry", "#FFFFFF"⟩, 0, 0⟩,
       ⟨11, "b", 1, 1, none, 0, 0⟩]
      [⟨1, "Pantry", "#FFFFFF"⟩] (by decide) (by decide)⟩

/-- C8 counterexample: "ZZZZZZ" is six characters but not hexadecimal, so the
claim requires "#000000"; the code checks only the byte length, every pair
then parses as 0, brightness 0 is not above 150, and white text is returned.
The claimed totality also fails: on "aµzzz" — six bytes, the two-byte µ
straddling the first slice boundary — the source's str slice panics,
modelled as none. -/
theorem get_text_color_for_bg_not_hex_check :
    get_text_color_for_bg (strBytes "ZZZZZZ") = some "#FFFFFF" ∧
    get_text_color_for_bg (strBytes "aµzzz") = none := by
  constructor
  · decide
  · decide

/-- C8 (amended): get_text_color_for_bg equals the amended contract on every
byte string: strip every leading hash; unless exactly six bytes remain
(hexadecimal or not), return black; panic — modelled as none — when a
multi-byte character straddles the slice boundary at offset 2 or 4;
otherwise parse the three byte pairs with from_str_radix semantics and
fallback 0 per unparsable pair, and return black text exactly when
(299 R + 587 G + 114 B) / 1000, integer truncated, exceeds 150, white
otherwise. -/
theorem get_text_color_for_bg_eq_spec (bs : List Nat) :
    get_text_color_for_bg bs = textColorForSpec bs := by
  unfold get_text_color_for_bg textColorForSpec
  generalize bs.dropWhile (fun b => b == 35) = l
  match l with
  | [] => rfl
  | [b0] => rfl
  | [b0, b1] => rfl
  | [b0, b1, b2] => rfl
  | [b0, b1, b2, b3] => rfl
  | [b0, b1, b2, b3, b4] => rfl
  | [b0, b1, b2, b3, b4, b5] =>
    show (if (6 : Nat) ≠ 6 then some "#000000" else _) = _
    rw [if_neg (by omega)]
    simp only [List.getD_cons_zero, List.getD_cons_succ]
    show _ = (if (isUtf8ContByte b2 || isUtf8ContByte b4) = true then none
      else if 150 < (299 * (from_str_radix_16_u8 b0 b1).getD 0 +
          587 * (from_str_radix_16_u8 b2 b3).getD 0 +
          114 * (from_str_radix_16_u8 b4 b5).getD 0) / 1000
      then some "#000000" else some "#FFFFFF")
    by_cases hcont : (isUtf8ContByte b2 || isUtf8ContByte b4) = true
    · rw [if_pos hcont, if_pos hcont]
    · rw [if_neg hcont, if_neg hcont]
      rw [Nat.mul_comm 299, Nat.mul_comm 587, Nat.mul_comm 114]
      exact apply_ite some _ _ _
  | b0 :: b1 :: b2 :: b3 :: b4 :: b5 :: b6 :: rest => simp

/-- C9: the notification helpers fail open: whenever the underlying fetch of
the items to restock fails, both the web and the API helper return the empty
sequence of notifications instead of propagating the failure, and their
return type has no error channel at all. -/
theorem notifications_fail_open (ε : Type) (e : ε) :
    get_notifications (Except.error e) = ([] : List Notification) ∧
    get_api_notifications (Except.error e) = ([] : List Notification) :=
  ⟨rfl, rfl⟩

end Inventory
